import Mathlib

/-!
# Verification of the F1 strategy simulator core

Shallow embedding of `src/models/tire_model.py`, `src/models/race_state.py`
and `src/models/strategy.py`.  Python `float` arithmetic is modelled by exact
rationals (`ℚ`); all the constants involved are short decimal literals, and
none of the verified claims hinges on binary rounding.  Python `int` is
modelled by `ℤ` (or `ℕ` where the source value is a count drawn from a
`range`).  Randomness (`random.randint`, `random.choice`, `random.gauss`,
`random.random`) is modelled by explicit draw streams passed as arguments.
Python exceptions are modelled with `Except PyErr`.
-/

/-- Python exceptions that the embedded code can raise. -/
inductive PyErr where
  | attributeError : PyErr
  | zeroDivisionError : PyErr
deriving DecidableEq, Repr

/-- Python `int(x)` on a float truncates toward zero. -/
def pyInt (q : ℚ) : ℤ := if 0 ≤ q then ⌊q⌋ else ⌈q⌉

/-! ## Tire model (`src/models/tire_model.py`) -/

/-- `TireCompound` enum (tire_model.py lines 6-11). `value` is the Python
enum's string payload. -/
inductive TireCompound where
  | soft | medium | hard | intermediate | wet
deriving DecidableEq, Repr

def TireCompound.value : TireCompound → String
  | .soft => "soft"
  | .medium => "medium"
  | .hard => "hard"
  | .intermediate => "intermediate"
  | .wet => "wet"

/-- `self.base_degradation_rates` (tire_model.py lines 31-37). -/
def base_degradation_rates : TireCompound → ℚ
  | .soft => 0.08
  | .medium => 0.05
  | .hard => 0.03
  | .intermediate => 0.06
  | .wet => 0.07

/-- `self.cliff_points` (tire_model.py lines 40-46). -/
def cliff_points : TireCompound → ℤ
  | .soft => 15
  | .medium => 25
  | .hard => 35
  | .intermediate => 20
  | .wet => 18

/-- `self.base_pace_delta` (tire_model.py lines 49-55). -/
def base_pace_delta : TireCompound → ℚ
  | .soft => -0.8
  | .medium => 0.0
  | .hard => 0.6
  | .intermediate => 1.5
  | .wet => 2.0

/-- `self.temp_sensitivity` (tire_model.py lines 58-64). -/
def temp_sensitivity : TireCompound → ℚ
  | .soft => 0.02
  | .medium => 0.015
  | .hard => 0.01
  | .intermediate => 0.025
  | .wet => 0.03

/-- `self.fuel_burn_gain_per_lap` (tire_model.py line 67). -/
def fuel_burn_gain_per_lap : ℚ := 0.035

/-- `TirePerformance` dataclass (tire_model.py lines 13-21). -/
structure TirePerformance where
  compound : TireCompound
  age_laps : ℤ
  degradation_rate : ℚ
  estimated_pace_loss : ℚ
  cliff_point : ℤ
  optimal_window : ℤ × ℤ
  grip_level : ℚ
deriving DecidableEq, Repr

/-- Wet-weather compound substitution, `calculate_tire_performance` lines
94-95: under wet conditions a dry compound is replaced by Intermediate. -/
def effectiveCompound (compound : TireCompound) (is_wet : Bool) : TireCompound :=
  if is_wet && (compound == .soft || compound == .medium || compound == .hard) then
    .intermediate
  else compound

/-- `degradation_per_lap = base_degradation * (1 + temp_factor) * abrasiveness`
(tire_model.py lines 98-110), for the already-substituted compound. -/
def degradation_per_lap (compound : TireCompound) (track_temp track_abrasiveness : ℚ) : ℚ :=
  base_degradation_rates compound * (1 + temp_sensitivity compound * (track_temp - 30))
    * track_abrasiveness

/-- `total_degradation` with the cliff penalty (tire_model.py lines 113-119),
for the already-substituted compound. -/
def total_degradation (compound : TireCompound) (age_laps : ℤ)
    (track_temp track_abrasiveness : ℚ) : ℚ :=
  let linear := degradation_per_lap compound track_temp track_abrasiveness * age_laps
  if age_laps > cliff_points compound then
    linear + ((age_laps : ℚ) - cliff_points compound) * 0.1
  else linear

/-- `fuel_advantage` (tire_model.py line 107). -/
def fuel_advantage (fuel_load : ℚ) : ℚ := fuel_burn_gain_per_lap * ((100 - fuel_load) / 100)

/-- `TireModel.calculate_tire_performance` (tire_model.py lines 69-140). -/
def calculate_tire_performance (compound₀ : TireCompound) (age_laps : ℤ)
    (track_temp fuel_load track_abrasiveness : ℚ) (is_wet : Bool) : TirePerformance :=
  let compound := effectiveCompound compound₀ is_wet
  let td := total_degradation compound age_laps track_temp track_abrasiveness
  let cliff_point := cliff_points compound
  { compound := compound
    age_laps := age_laps
    degradation_rate := degradation_per_lap compound track_temp track_abrasiveness
    estimated_pace_loss := base_pace_delta compound + td - fuel_advantage fuel_load
    cliff_point := cliff_point
    optimal_window := (max 1 (age_laps - 5), min cliff_point (age_laps + 10))
    grip_level := max 0.1 (1.0 - td / 3.0) }

/-- Fuel fed to lap `lap` of a stint of `stint_length` laps
(`predict_stint_performance` line 170):
`current_fuel = starting_fuel * (1 - (lap - 1) / stint_length)`. -/
def stintFuel (starting_fuel : ℚ) (stint_length : ℕ) (lap : ℕ) : ℚ :=
  starting_fuel * (1 - ((lap : ℚ) - 1) / (stint_length : ℚ))

/-- `TireModel.predict_stint_performance` (tire_model.py lines 142-183):
one `TirePerformance` per lap `1..stint_length`. -/
def predict_stint_performance (compound : TireCompound) (stint_length : ℕ)
    (starting_fuel track_temp track_abrasiveness : ℚ) (is_wet : Bool) :
    List TirePerformance :=
  (List.range stint_length).map fun k =>
    let lap : ℕ := k + 1
    calculate_tire_performance compound (lap : ℤ) track_temp
      (stintFuel starting_fuel stint_length lap) track_abrasiveness is_wet

/-! ## Race state (`src/models/race_state.py`) -/

/-- `WeatherData` dataclass (race_state.py lines 29-37): optional floats plus
a `rainfall : bool` defaulting to false.  It defines data attributes only, no
methods. -/
structure WeatherData where
  air_temperature : Option ℚ := none
  track_temperature : Option ℚ := none
  humidity : Option ℚ := none
  wind_speed : Option ℚ := none
  wind_direction : Option ℚ := none
  rainfall : Bool := false
  pressure : Option ℚ := none
deriving DecidableEq, Repr

/-- Python attribute access `weather_data.get(key, default)` for a float
default (strategy.py line 283).  `WeatherData` is a dataclass, not a dict: it
has no attribute `get`, so the lookup raises `AttributeError` before the key
or the default is ever considered. -/
def WeatherData.dictGetQ (_w : WeatherData) (_key : String) (_default : ℚ) :
    Except PyErr ℚ :=
  .error .attributeError

/-- Python attribute access `weather_data.get(key, default)` for a bool
default (strategy.py line 284); raises `AttributeError` exactly like
`WeatherData.dictGetQ`. -/
def WeatherData.dictGetB (_w : WeatherData) (_key : String) (_default : Bool) :
    Except PyErr Bool :=
  .error .attributeError

/-- The slice of `RaceState` (race_state.py lines 41-81) read by the strategy
simulator: lap counters, the driver table (modelled by the list of driver
numbers), the data-quality flags and the weather snapshot. -/
structure RaceState where
  current_lap : ℤ
  total_laps : ℤ
  drivers : List ℕ
  data_quality : List Bool
  weather_data : WeatherData
deriving DecidableEq, Repr

/-- `RaceState.is_valid` (race_state.py lines 325-333). -/
def RaceState.is_valid (rs : RaceState) : Bool :=
  decide (rs.current_lap > 0) && decide (rs.total_laps > 0) &&
    decide (rs.drivers.length > 0) && rs.data_quality.any id

/-! ## Strategy simulator (`src/models/strategy.py`) -/

/-- `RaceStrategy` dataclass (strategy.py lines 11-23). -/
structure RaceStrategy where
  strategy_id : String
  num_stops : ℕ
  stop_laps : List ℤ
  tire_sequence : List String
  total_time : ℚ
  risk_score : ℚ
  weather_adjusted : Bool
  confidence : ℚ := 0.0
  expected_position : ℕ := 0
  fuel_savings : ℚ := 0.0
  safety_car_factor : ℚ := 0.0
deriving DecidableEq, Repr

/-- A candidate strategy dict produced by `_generate_random_strategy`
(strategy.py lines 187-191). -/
structure StrategyCombo where
  num_stops : ℕ
  stop_laps : List ℤ
  tire_sequence : List TireCompound
deriving DecidableEq, Repr

/-- Simulator constant `self.pit_stop_time_loss` (strategy.py line 35). -/
def pit_stop_time_loss : ℚ := 25.0

/-- Simulator constant `self.safety_car_pit_advantage` (strategy.py line 42). -/
def safety_car_pit_advantage : ℚ := 15.0

/-- Simulator constant `self.track_characteristics['abrasiveness']`
(strategy.py line 50). -/
def track_abrasiveness_default : ℚ := 1.0

/-- `random.choice(menu)` modelled by an arbitrary draw `k` reduced modulo
the menu length, so every draw selects a legitimate menu entry. -/
def pickFrom (menu : List TireCompound) (k : ℕ) : TireCompound :=
  menu.getD (k % menu.length) .soft

/-- The randomness consumed by one `_generate_random_strategy` call:
`offsets i` is the `random.randint(-3, 3)` draw for the i-th stop position,
`pick i` selects the `random.choice` outcome for stint `i`. -/
structure GenDraw where
  offsets : ℕ → ℤ
  pick : ℕ → ℕ

/-- `np.linspace(0.2, 0.8, num_stops)` (strategy.py line 168): the i-th of
`n` evenly spaced points from 0.2 to 0.8 inclusive (the single point is 0.2
when `n = 1`). -/
def linspace2080 (n i : ℕ) : ℚ :=
  if n ≤ 1 then 0.2 else 0.2 + 0.6 * (i : ℚ) / ((n : ℚ) - 1)

/-- `sorted(set(xs))` (strategy.py line 174): duplicates removed, ascending. -/
def dedupSort (l : List ℤ) : List ℤ := List.insertionSort (· ≤ ·) l.dedup

/-- The raw clamped stop laps (strategy.py lines 168-172), before
deduplication: `lap = current_lap + int(pos * remaining) + randint(-3, 3)`
clamped to `[current_lap + 1, total_laps - 1]` via `max(.., min(.., lap))`. -/
def rawStopLaps (num_stops : ℕ) (current_lap total_laps : ℤ) (offsets : ℕ → ℤ) :
    List ℤ :=
  let remaining := total_laps - current_lap
  (List.range num_stops).map fun i =>
    let lap := current_lap + pyInt (linspace2080 num_stops i * (remaining : ℚ))
      + offsets i
    max (current_lap + 1) (min (total_laps - 1) lap)

/-- Tire choice for stint `i` (strategy.py lines 177-185): first stint from
{Medium, Hard}, final stint (index = `len(stop_laps)`) from {Soft, Medium},
middle stints from all three dry compounds. -/
def chooseTire (stop_laps_len : ℕ) (pick : ℕ → ℕ) (i : ℕ) : TireCompound :=
  if i = 0 then pickFrom [.medium, .hard] (pick i)
  else if i = stop_laps_len then pickFrom [.soft, .medium] (pick i)
  else pickFrom [.soft, .medium, .hard] (pick i)

/-- `StrategySimulator._generate_random_strategy` (strategy.py lines
153-191). -/
def generate_random_strategy (num_stops : ℕ) (current_lap total_laps : ℤ)
    (d : GenDraw) : StrategyCombo :=
  let stop_laps :=
    if num_stops > 0 then dedupSort (rawStopLaps num_stops current_lap total_laps d.offsets)
    else []
  { num_stops := num_stops
    stop_laps := stop_laps
    tire_sequence := (List.range (num_stops + 1)).map (chooseTire stop_laps.length d.pick) }

/-- The randomness consumed by `_generate_strategy_combinations`: a fresh
`GenDraw` per generated candidate, and the `random.randint(0, max_stops)`
draw used by the padding loop (taken modulo `max_stops + 1` so any draw is a
legitimate outcome). -/
structure ComboDraw where
  gen : ℕ → GenDraw
  padStops : ℕ → ℕ

/-- `StrategySimulator._generate_strategy_combinations` (strategy.py lines
114-151): `min(num_simulations // (max_stops + 1), 100)` candidates per stop
count `0..max_stops`, padded with random stop counts up to `num_simulations`,
then truncated to `num_simulations`. -/
def generate_strategy_combinations (current_lap total_laps : ℤ)
    (max_stops num_simulations : ℕ) (d : ComboDraw) : List StrategyCombo :=
  let per := min (num_simulations / (max_stops + 1)) 100
  let base := (List.range (max_stops + 1)).flatMap fun ns =>
    (List.range per).map fun j =>
      generate_random_strategy ns current_lap total_laps (d.gen (ns * per + j))
  let padded := base ++ (List.range (num_simulations - base.length)).map fun i =>
    generate_random_strategy (d.padStops i % (max_stops + 1)) current_lap total_laps
      (d.gen (base.length + i))
  padded.take num_simulations

/-- `StrategySimulator._simulate_stint` (strategy.py lines 272-316).  The
first statement, `race_state.weather_data.get('track_temperature', 30.0)`,
raises `AttributeError` (`WeatherData` is a dataclass without a `get`
method), so the whole call errors; the remainder of the body is the faithful
translation of the code that would run had the lookup succeeded. -/
def simulate_stint (compound : TireCompound) (stint_length stint_start_lap : ℤ)
    (rs : RaceState) (consider_weather : Bool) : Except PyErr (ℚ × ℚ) := do
  let track_temp ← rs.weather_data.dictGetQ "track_temperature" 30.0
  let is_wet ← if consider_weather then rs.weather_data.dictGetB "rainfall" false
    else pure false
  let stint_performance := predict_stint_performance compound stint_length.toNat
    (100.0 - ((stint_start_lap : ℚ) / (rs.total_laps : ℚ) * 60)) track_temp
    track_abrasiveness_default is_wet
  let step := fun (acc : ℚ × ℚ) (p : TirePerformance) =>
    let t := acc.1 + p.estimated_pace_loss
    let r := if p.age_laps > p.cliff_point then acc.2 + 1.0 else acc.2
    let r := if p.grip_level < 0.4 then r + 0.5 else r
    if is_wet && !(compound == .intermediate || compound == .wet) then
      (t + 2.0, r + 2.0)
    else (t, r)
  let (total_stint_time, stint_risk) := stint_performance.foldl step (0.0, 0.0)
  return (total_stint_time, stint_risk)

/-- `StrategySimulator._calculate_pit_stop_time` (strategy.py lines 318-332):
`g` is the `random.gauss(0, 2)` draw, `u` the `random.random()` draw. -/
def calculate_pit_stop_time (safety_car_prob g u : ℚ) : ℚ :=
  let pit_time := pit_stop_time_loss + g
  let pit_time := if u < safety_car_prob then pit_time - safety_car_pit_advantage * 0.5
    else pit_time
  max 15.0 pit_time

/-- `StrategySimulator._calculate_strategy_confidence` (strategy.py lines
334-359).  Each loop iteration divides by `remaining_laps`, so a non-empty
`stop_laps` with `remaining_laps = 0` raises `ZeroDivisionError`. -/
def calculate_strategy_confidence (strategy : StrategyCombo) (rs : RaceState) :
    Except PyErr ℚ :=
  let confidence : ℚ := 0.8
  let confidence := if strategy.num_stops > 2 then confidence - 0.1 else confidence
  let remaining_laps := rs.total_laps - rs.current_lap
  if strategy.stop_laps ≠ [] ∧ remaining_laps = 0 then .error .zeroDivisionError
  else
    let confidence := strategy.stop_laps.foldl
      (fun acc stop_lap =>
        let relative_position := ((stop_lap - rs.current_lap : ℤ) : ℚ) / (remaining_laps : ℚ)
        if relative_position < 0.1 ∨ relative_position > 0.9 then acc - 0.1 else acc)
      confidence
    let confidence :=
      if strategy.tire_sequence.length ≥ 2 ∧ .medium ∈ strategy.tire_sequence then
        confidence + 0.1
      else confidence
    .ok (max 0.1 (min 1.0 confidence))

/-- `StrategySimulator._is_weather_adjusted_strategy` (strategy.py lines
361-364). -/
def is_weather_adjusted_strategy (tire_sequence : List TireCompound) : Bool :=
  tire_sequence.any fun c => c == .intermediate || c == .wet

/-- The stint loop of `_simulate_single_strategy` (strategy.py lines
213-248), carrying `(total_time, risk_score, stint_start_lap)`.  When
`stint_length <= 0` the `continue` skips the whole body, leaving
`stint_start_lap` unchanged; otherwise the stint is simulated and, for
non-final stints, the pit-stop time is added. -/
def stintLoop (rs : RaceState) (consider_weather : Bool) (safety_car_prob : ℚ)
    (stop_laps : List ℤ) (pitDraw : ℕ → ℚ × ℚ) :
    List TireCompound → ℕ → ℤ → ℚ → ℚ → Except PyErr (ℚ × ℚ)
  | [], _, _, total_time, risk_score => .ok (total_time, risk_score)
  | compound :: rest, stint_idx, stint_start_lap, total_time, risk_score => do
    let stint_end_lap := stop_laps.getD stint_idx rs.total_laps
    let stint_length := stint_end_lap - stint_start_lap
    if stint_length ≤ 0 then
      stintLoop rs consider_weather safety_car_prob stop_laps pitDraw rest
        (stint_idx + 1) stint_start_lap total_time risk_score
    else do
      let (stint_time, stint_risk) ←
        simulate_stint compound stint_length stint_start_lap rs consider_weather
      let total_time := total_time + stint_time
      let risk_score := risk_score + stint_risk
      let total_time := if stint_idx < stop_laps.length then
          total_time + calculate_pit_stop_time safety_car_prob (pitDraw stint_idx).1
            (pitDraw stint_idx).2
        else total_time
      stintLoop rs consider_weather safety_car_prob stop_laps pitDraw rest
        (stint_idx + 1) stint_end_lap total_time risk_score

/-- `StrategySimulator._simulate_single_strategy` (strategy.py lines
193-270): evaluate one candidate; the surrounding `try/except` turns any
exception into `None`.  `pitDraw` supplies the pit-stop randomness, `hashMod`
stands for Python's `hash(str(strategy_combo)) % 10000`. -/
def simulate_single_strategy (strategy_combo : StrategyCombo) (rs : RaceState)
    (consider_weather : Bool) (safety_car_prob : ℚ) (pitDraw : ℕ → ℚ × ℚ)
    (hashMod : ℕ) : Option RaceStrategy :=
  let run : Except PyErr RaceStrategy := do
    let (total_time, risk_score) ← stintLoop rs consider_weather safety_car_prob
      strategy_combo.stop_laps pitDraw strategy_combo.tire_sequence 0 rs.current_lap 0.0 0.0
    let confidence ← calculate_strategy_confidence strategy_combo rs
    let weather_adjusted := consider_weather &&
      is_weather_adjusted_strategy strategy_combo.tire_sequence
    return { strategy_id := "strat_" ++ toString strategy_combo.num_stops ++ "_"
               ++ toString hashMod
             num_stops := strategy_combo.num_stops
             stop_laps := strategy_combo.stop_laps
             tire_sequence := strategy_combo.tire_sequence.map TireCompound.value
             total_time := total_time
             risk_score := risk_score
             weather_adjusted := weather_adjusted
             confidence := confidence }
  match run with
  | .ok s => some s
  | .error _ => none

/-- `StrategySimulator._generate_demo_strategies` (strategy.py lines
366-422), verbatim. -/
def generate_demo_strategies : List RaceStrategy :=
  [ { strategy_id := "demo_1_stop", num_stops := 1, stop_laps := [35]
      tire_sequence := ["medium", "hard"], total_time := 120.5, risk_score := 1.2
      weather_adjusted := false, confidence := 0.85 }
  , { strategy_id := "demo_2_stop", num_stops := 2, stop_laps := [25, 45]
      tire_sequence := ["soft", "medium", "hard"], total_time := 118.7, risk_score := 2.1
      weather_adjusted := false, confidence := 0.78 }
  , { strategy_id := "demo_aggressive", num_stops := 2, stop_laps := [20, 40]
      tire_sequence := ["soft", "soft", "medium"], total_time := 116.3, risk_score := 3.5
      weather_adjusted := false, confidence := 0.65 }
  , { strategy_id := "demo_conservative", num_stops := 1, stop_laps := [40]
      tire_sequence := ["hard", "medium"], total_time := 125.2, risk_score := 0.8
      weather_adjusted := false, confidence := 0.92 }
  , { strategy_id := "demo_weather", num_stops := 3, stop_laps := [15, 30, 50]
      tire_sequence := ["intermediate", "soft", "medium", "hard"], total_time := 135.8
      risk_score := 4.2, weather_adjusted := true, confidence := 0.45 } ]

/-- The sorting key of strategy.py line 111: ascending `total_time`. -/
def byTime (a b : RaceStrategy) : Prop := a.total_time ≤ b.total_time

instance : DecidableRel byTime := fun _ _ => inferInstanceAs (Decidable (_ ≤ _))

instance : IsTotal RaceStrategy byTime := ⟨fun a b => le_total a.total_time b.total_time⟩

instance : IsTrans RaceStrategy byTime := ⟨fun _ _ _ h h' => le_trans h h'⟩

/-- The per-call randomness of `simulate_strategies`: the generator draws
plus, for the candidate at position `i`, its pit-stop draw stream and its
`hash(...) % 10000` value. -/
structure SimDraw where
  combo : ComboDraw
  pit : ℕ → ℕ → ℚ × ℚ
  hashMod : ℕ → ℕ

/-- `StrategySimulator.simulate_strategies` (strategy.py lines 56-112):
demo fallback on an invalid race state; otherwise generate candidates,
evaluate each (dropping the `None` results), sort ascending by `total_time`
and keep the first 20.  The thread pool's completion order only permutes the
list fed to the final sort. -/
def simulate_strategies (rs : RaceState) (num_simulations : ℕ)
    (consider_weather : Bool) (safety_car_prob : ℚ) (max_stops : ℕ)
    (d : SimDraw) : List RaceStrategy :=
  if !rs.is_valid then generate_demo_strategies
  else
    let strategy_combinations := generate_strategy_combinations rs.current_lap
      rs.total_laps max_stops num_simulations d.combo
    let strategies := strategy_combinations.enum.filterMap fun (i, combo) =>
      simulate_single_strategy combo rs consider_weather safety_car_prob (d.pit i)
        (d.hashMod i)
    (List.insertionSort byTime strategies).take 20

/-! ## Helper lemmas -/

/-- `dedup` of a constant non-empty list is the singleton. -/
theorem dedup_replicate_succ (n : ℕ) (v : ℤ) :
    (List.replicate (n + 1) v).dedup = [v] := by
  induction n with
  | zero => rfl
  | succ m ih =>
    rw [List.replicate_succ, List.dedup_cons_of_mem (by simp [List.mem_replicate])]
    exact ih

/-- Folding the per-stop confidence penalty subtracts `0.1` per stop
satisfying the predicate. -/
theorem foldl_penalty (p : ℤ → Prop) [DecidablePred p] (l : List ℤ) (c : ℚ) :
    l.foldl (fun acc x => if p x then acc - 0.1 else acc) c
      = c - 0.1 * l.countP (fun x => decide (p x)) := by
  induction l generalizing c with
  | nil => simp
  | cons x xs ih =>
    rw [List.foldl_cons, ih, List.countP_cons]
    by_cases hx : p x <;> simp [hx] <;> ring

/-! ## Claim theorems -/

/-- C9: the worked Hard-tire scenario: age 40 exceeds Hard's cliff point 35,
`total_degradation = 0.03*40 + (40-35)*0.1 = 1.7` and
`estimated_pace_loss = 0.6 + 1.7 - 0.035*(50/100) = 2.2825`. -/
theorem hard_age40_scenario :
    cliff_points .hard = 35 ∧ (40 : ℤ) > cliff_points .hard ∧
    total_degradation .hard 40 30 1.0 = 1.7 ∧
    (calculate_tire_performance .hard 40 30.0 50.0 1.0 false).estimated_pace_loss
      = 2.2825 := by
  refine ⟨rfl, by decide, ?_, ?_⟩ <;>
    norm_num [calculate_tire_performance, effectiveCompound, total_degradation,
      degradation_per_lap, base_degradation_rates, temp_sensitivity, cliff_points,
      base_pace_delta, fuel_advantage, fuel_burn_gain_per_lap]

/-- C7 counterexample: with `track_abrasiveness = 0` the per-lap degradation
vanishes, so raising `age_laps` from 1 to 2 leaves `total_degradation` (and
`estimated_pace_loss`) unchanged — degradation is not strictly increasing in
age for all fixed values of the other inputs. -/
theorem degradation_not_strictly_monotone :
    (1 : ℤ) < 2 ∧
    total_degradation .soft 1 30 0 = total_degradation .soft 2 30 0 ∧
    (calculate_tire_performance .soft 1 30 50 0 false).estimated_pace_loss
      = (calculate_tire_performance .soft 2 30 50 0 false).estimated_pace_loss := by
  refine ⟨by decide, ?_, ?_⟩ <;>
    norm_num [calculate_tire_performance, effectiveCompound, total_degradation,
      degradation_per_lap, base_degradation_rates, temp_sensitivity, cliff_points,
      base_pace_delta, fuel_advantage, fuel_burn_gain_per_lap]

/-- C7 (amended): for every compound and fixed `track_temp`, `fuel_load`,
`track_abrasiveness` and `is_wet` such that the computed
`degradation_per_lap` of the (wet-substituted) compound is positive,
`total_degradation` — and therefore `estimated_pace_loss` — is strictly
increasing in `age_laps`. -/
theorem degradation_strict_mono (c : TireCompound) (temp fuel abr : ℚ) (w : Bool)
    (a b : ℤ) (hab : a < b)
    (hpos : 0 < degradation_per_lap (effectiveCompound c w) temp abr) :
    total_degradation (effectiveCompound c w) a temp abr
        < total_degradation (effectiveCompound c w) b temp abr ∧
    (calculate_tire_performance c a temp fuel abr w).estimated_pace_loss
        < (calculate_tire_performance c b temp fuel abr w).estimated_pace_loss := by
  set e := effectiveCompound c w with he
  have hcast : (a : ℚ) < (b : ℚ) := by exact_mod_cast hab
  have hmul : degradation_per_lap e temp abr * a < degradation_per_lap e temp abr * b :=
    mul_lt_mul_of_pos_left hcast hpos
  have htd : total_degradation e a temp abr < total_degradation e b temp abr := by
    unfold total_degradation
    split_ifs with h1 h2 h2
    · have : ((a : ℚ) - cliff_points e) ≤ ((b : ℚ) - cliff_points e) := by
        have : (a : ℚ) ≤ b := le_of_lt hcast
        linarith
      nlinarith
    · omega
    · have hb : ((b : ℚ) - cliff_points e) * 0.1 > 0 := by
        have : (cliff_points e : ℚ) < (b : ℚ) := by exact_mod_cast h2
        nlinarith
      nlinarith
    · exact hmul
  refine ⟨htd, ?_⟩
  simp only [calculate_tire_performance, ← he]
  have := htd
  linarith

/-- C7 witness: Soft, 30 °C, abrasiveness 1, ages 1 < 2. -/
theorem degradation_strict_mono_witness :
    total_degradation (effectiveCompound .soft false) 1 30 1
        < total_degradation (effectiveCompound .soft false) 2 30 1 ∧
    (calculate_tire_performance .soft 1 30 50 1 false).estimated_pace_loss
        < (calculate_tire_performance .soft 2 30 50 1 false).estimated_pace_loss :=
  degradation_strict_mono .soft 30 50 1 false 1 2 (by decide)
    (by norm_num [degradation_per_lap, effectiveCompound, base_degradation_rates,
      temp_sensitivity])

/-- C2 counterexample: in a 2-lap stint starting from 100% fuel, the fuel
fed to the final lap is `100 * (1 - 1/2) = 50`, not 0: the fuel sequence
never reaches 0 at lap `L`. -/
theorem stint_fuel_not_zero_at_end :
    (predict_stint_performance .soft 2 100 30 1 false).get? 1
        = some (calculate_tire_performance .soft 2 30 (stintFuel 100 2 2) 1 false) ∧
    stintFuel 100 2 2 = 50 ∧ (50 : ℚ) ≠ 0 := by
  refine ⟨?_, by norm_num [stintFuel], by norm_num⟩
  simp [predict_stint_performance, List.range_succ]

/-- C2 (amended): `predict_stint_performance` with `stint_length = L ≥ 1`
produces exactly `L` points, the `k`-th being the performance at age `k + 1`
under fuel `stintFuel starting_fuel L (k + 1)`; that fuel starts at
`starting_fuel`, falls by the constant amount `starting_fuel / L` per lap
(hence is non-increasing when `starting_fuel ≥ 0`), and ends at
`starting_fuel / L` — not 0 — on lap `L`. -/
theorem predict_stint_performance_spec (c : TireCompound) (L : ℕ)
    (sf temp abr : ℚ) (w : Bool) (hL : 1 ≤ L) (hsf : 0 ≤ sf) :
    (predict_stint_performance c L sf temp abr w).length = L ∧
    (∀ k : ℕ, k < L → (predict_stint_performance c L sf temp abr w).get? k
        = some (calculate_tire_performance c ((k : ℤ) + 1) temp
            (stintFuel sf L (k + 1)) abr w)) ∧
    stintFuel sf L 1 = sf ∧
    (∀ lap : ℕ, 1 ≤ lap → lap < L →
        stintFuel sf L (lap + 1) - stintFuel sf L lap = -(sf / L)) ∧
    (∀ lap : ℕ, 1 ≤ lap → lap < L →
        stintFuel sf L (lap + 1) ≤ stintFuel sf L lap) ∧
    stintFuel sf L L = sf / L := by
  have hL0 : (L : ℚ) ≠ 0 := by
    have : 0 < L := lt_of_lt_of_le Nat.zero_lt_one hL
    positivity
  have hdiff : ∀ lap : ℕ, stintFuel sf L (lap + 1) - stintFuel sf L lap = -(sf / L) := by
    intro lap
    unfold stintFuel
    push_cast
    field_simp
    ring
  have hLpos : (0 : ℚ) < L := by
    have : 0 < L := lt_of_lt_of_le Nat.zero_lt_one hL
    exact_mod_cast this
  refine ⟨?_, ?_, ?_, fun lap _ _ => hdiff lap, ?_, ?_⟩
  · simp [predict_stint_performance]
  · intro k hk
    simp only [predict_stint_performance, List.get?_map, List.get?_range hk]
    push_cast
    rfl
  · unfold stintFuel
    norm_num
  · intro lap _ _
    have h := hdiff lap
    have : 0 ≤ sf / L := div_nonneg hsf (le_of_lt hLpos)
    linarith
  · unfold stintFuel
    field_simp

/-- C2 witness: soft compound, `L = 2`, `starting_fuel = 100`. -/
theorem predict_stint_performance_spec_witness :
    (predict_stint_performance .soft 2 100 30 1 false).length = 2 ∧
    stintFuel 100 2 1 = 100 ∧ stintFuel 100 2 2 = 100 / 2 :=
  ⟨(predict_stint_performance_spec .soft 2 100 30 1 false (by decide) (by norm_num)).1,
   (predict_stint_performance_spec .soft 2 100 30 1 false (by decide) (by norm_num)).2.2.1,
   (predict_stint_performance_spec .soft 2 100 30 1 false (by decide) (by norm_num)).2.2.2.2.2⟩

/-- A concrete race state used by the confidence claims: lap 10 of 60, one
driver, positions marked good, empty weather snapshot. -/
def rsC5 : RaceState :=
  { current_lap := 10, total_laps := 60, drivers := [1], data_quality := [true]
    weather_data := {} }

/-- C5 counterexample: for the 0-stop candidate `[Medium]` the claim's
formula gives `0.8 + 0.1 = 0.9` (Medium appears in the sequence), but the
code only grants the Medium bonus when the sequence has at least two
entries, so it returns `0.8`. -/
theorem confidence_medium_bonus_counterexample :
    calculate_strategy_confidence ⟨0, [], [.medium]⟩ rsC5 = .ok 0.8 ∧
    (0.8 : ℚ) ≠ max 0.1 (min 1.0 (0.8 + 0.1)) := by
  constructor
  · norm_num [calculate_strategy_confidence, rsC5, min_def, max_def]
  · rw [min_eq_right (by norm_num), max_eq_right (by norm_num)]
    norm_num

/-- The confidence formula in closed form: 0.8, minus 0.1 if more than two
stops, minus 0.1 per stop whose relative position in the remaining distance
is below 10% or above 90%, plus 0.1 if the tire sequence has at least two
entries and contains Medium, clamped to [0.1, 1.0]. -/
def confidenceClosedForm (s : StrategyCombo) (rs : RaceState) : ℚ :=
  let remaining : ℤ := rs.total_laps - rs.current_lap
  let outOfWindow : ℕ := s.stop_laps.countP fun sl =>
    decide ((((sl - rs.current_lap : ℤ) : ℚ) / (remaining : ℚ)) < 0.1 ∨
      (((sl - rs.current_lap : ℤ) : ℚ) / (remaining : ℚ)) > 0.9)
  max 0.1 (min 1.0 ((0.8 - (if s.num_stops > 2 then 0.1 else 0))
    - 0.1 * outOfWindow
    + (if 2 ≤ s.tire_sequence.length ∧ TireCompound.medium ∈ s.tire_sequence
        then 0.1 else 0)))

/-- C5 (amended): whenever the remaining distance is non-zero (or there are
no stops, so no division occurs), `_calculate_strategy_confidence` returns
exactly the closed-form score, whose Medium bonus requires the sequence to
have at least two entries. -/
theorem confidence_eq_closed_form (s : StrategyCombo) (rs : RaceState)
    (h : s.stop_laps = [] ∨ rs.total_laps - rs.current_lap ≠ 0) :
    calculate_strategy_confidence s rs = .ok (confidenceClosedForm s rs) := by
  have hcond : ¬(s.stop_laps ≠ [] ∧ rs.total_laps - rs.current_lap = 0) := by tauto
  unfold calculate_strategy_confidence confidenceClosedForm
  rw [if_neg hcond, foldl_penalty]
  simp only [Except.ok.injEq]
  congr 1
  congr 1
  split_ifs <;> ring

/-- C5 witness: a 2-stop candidate at laps 25 and 45 from lap 10 of 60. -/
theorem confidence_eq_closed_form_witness :
    ((⟨2, [25, 45], [.soft, .medium, .hard]⟩ : StrategyCombo).stop_laps = [] ∨
      rsC5.total_laps - rsC5.current_lap ≠ 0) ∧
    calculate_strategy_confidence ⟨2, [25, 45], [.soft, .medium, .hard]⟩ rsC5
      = .ok (confidenceClosedForm ⟨2, [25, 45], [.soft, .medium, .hard]⟩ rsC5) :=
  ⟨Or.inr (by norm_num [rsC5]),
   confidence_eq_closed_form _ _ (Or.inr (by norm_num [rsC5]))⟩

/-- C6 counterexample: for `current_lap = 5`, `total_laps = 3` (degenerate
window) and a requested `num_stops = 2`, the Generator does not skip
stop-lap generation: every candidate lap clamps to `current_lap + 1 = 6` and
the deduplicated result is `[6]`, not the empty list. -/
theorem gen_degenerate_window_counterexample :
    (generate_random_strategy 2 5 3 ⟨fun _ => 0, fun _ => 0⟩).stop_laps = [6] ∧
    ([6] : List ℤ) ≠ [] := by
  refine ⟨?_, by simp⟩
  unfold generate_random_strategy
  rw [if_pos (by norm_num)]
  have hraw : rawStopLaps 2 5 3 (fun _ => 0) = List.replicate 2 6 := by
    unfold rawStopLaps
    rw [List.eq_replicate_iff]
    refine ⟨by simp, ?_⟩
    intro b hb
    simp only [List.mem_map, List.mem_range] at hb
    obtain ⟨i, -, rfl⟩ := hb
    omega
  rw [hraw]
  decide

/-- C6 (amended): when `total_laps <= current_lap` the Generator does not
produce an empty `stop_laps` for `num_stops >= 1`; instead every candidate
stop lap clamps to `current_lap + 1` and, after dedup and sort,
`stop_laps = [current_lap + 1]` (no division occurs in the Generator). -/
theorem gen_degenerate_window (num_stops : ℕ) (cl tl : ℤ) (d : GenDraw)
    (h1 : 1 ≤ num_stops) (h2 : tl ≤ cl) :
    (generate_random_strategy num_stops cl tl d).stop_laps = [cl + 1] := by
  unfold generate_random_strategy
  rw [if_pos (by omega)]
  have hraw : rawStopLaps num_stops cl tl d.offsets
      = List.replicate num_stops (cl + 1) := by
    unfold rawStopLaps
    rw [List.eq_replicate_iff]
    refine ⟨by simp, ?_⟩
    intro b hb
    simp only [List.mem_map, List.mem_range] at hb
    obtain ⟨i, -, rfl⟩ := hb
    omega
  rw [hraw]
  obtain ⟨m, rfl⟩ : ∃ m, num_stops = m + 1 := ⟨num_stops - 1, by omega⟩
  unfold dedupSort
  rw [dedup_replicate_succ]
  rfl

/-- C6 witness: `num_stops = 2`, `current_lap = 5`, `total_laps = 3`,
all draws 1. -/
theorem gen_degenerate_window_witness :
    (generate_random_strategy 2 5 3 ⟨fun _ => 1, fun _ => 1⟩).stop_laps = [5 + 1] :=
  gen_degenerate_window 2 5 3 ⟨fun _ => 1, fun _ => 1⟩ (by decide) (by decide)

/-- C8: every candidate the Generator produces has a tire sequence of
exactly `num_stops + 1` entries, and (when the window
`[current_lap + 1, total_laps - 1]` is non-empty) strictly increasing stop
laps lying strictly between `current_lap` and `total_laps`. -/
theorem gen_candidate_invariants (num_stops : ℕ) (cl tl : ℤ) (d : GenDraw)
    (h : cl + 1 ≤ tl - 1) :
    (generate_random_strategy num_stops cl tl d).tire_sequence.length
        = num_stops + 1 ∧
    (generate_random_strategy num_stops cl tl d).stop_laps.Sorted (· < ·) ∧
    ∀ l ∈ (generate_random_strategy num_stops cl tl d).stop_laps,
      cl < l ∧ l < tl := by
  have hmem : ∀ l ∈ (generate_random_strategy num_stops cl tl d).stop_laps,
      l ∈ rawStopLaps num_stops cl tl d.offsets := by
    intro l hl
    unfold generate_random_strategy at hl
    by_cases hns : num_stops > 0
    · rw [if_pos hns] at hl
      unfold dedupSort at hl
      have := (List.perm_insertionSort (· ≤ ·)
        (rawStopLaps num_stops cl tl d.offsets).dedup).mem_iff.mp hl
      exact List.mem_dedup.mp this
    · rw [if_neg hns] at hl
      simp at hl
  refine ⟨by simp [generate_random_strategy], ?_, ?_⟩
  · unfold generate_random_strategy
    by_cases hns : num_stops > 0
    · rw [if_pos hns]
      refine List.Sorted.lt_of_le (List.sorted_insertionSort _ _) ?_
      exact (List.perm_insertionSort (· ≤ ·) _).nodup_iff.mpr (List.nodup_dedup _)
    · rw [if_neg hns]
      exact List.sorted_nil
  · intro l hl
    have := hmem l hl
    unfold rawStopLaps at this
    simp only [List.mem_map, List.mem_range] at this
    obtain ⟨i, -, rfl⟩ := this
    omega

/-- C8 witness: 2 stops, lap 10 of 60. -/
theorem gen_candidate_invariants_witness :
    (generate_random_strategy 2 10 60 ⟨fun _ => 0, fun _ => 0⟩).tire_sequence.length
        = 2 + 1 ∧
    (generate_random_strategy 2 10 60 ⟨fun _ => 0, fun _ => 0⟩).stop_laps.Sorted (· < ·) ∧
    ∀ l ∈ (generate_random_strategy 2 10 60 ⟨fun _ => 0, fun _ => 0⟩).stop_laps,
      (10:ℤ) < l ∧ l < 60 :=
  gen_candidate_invariants 2 10 60 ⟨fun _ => 0, fun _ => 0⟩ (by decide)

/-- Shared helper: every `_simulate_stint` call raises `AttributeError` at
its first statement, the `.get` lookup on the `WeatherData` dataclass. -/
theorem simulate_stint_error (c : TireCompound) (len start : ℤ) (rs : RaceState)
    (cw : Bool) : simulate_stint c len start rs cw = .error .attributeError := rfl

/-- C3: `_simulate_stint` never reaches the weather defaults: the
`weather_data.get('track_temperature', 30.0)` lookup raises
`AttributeError` for every race state (with or without the optional weather
fields), so stint evaluation always fails instead of proceeding with the
defaults 30.0 / false. -/
theorem simulate_stint_raises_attribute_error (c : TireCompound)
    (len start : ℤ) (rs : RaceState) (cw : Bool) :
    simulate_stint c len start rs cw = .error .attributeError := rfl

/-- An invalid race state: lap 0 of 0, no drivers, no data quality. -/
def rsInvalid : RaceState :=
  { current_lap := 0, total_laps := 0, drivers := [], data_quality := []
    weather_data := {} }

/-- A fixed all-zero randomness bundle for concrete calls. -/
def d0sim : SimDraw :=
  { combo := { gen := fun _ => ⟨fun _ => 0, fun _ => 0⟩, padStops := fun _ => 0 }
    pit := fun _ _ => (0, 1)
    hashMod := fun _ => 0 }

/-- C4: an invalid race state (here `total_laps = 0` and no drivers) makes
`simulate_strategies` return the fixed demo list of 5 strategies — never an
empty list, and no exception escapes. -/
theorem invalid_state_demo_fallback (rs : RaceState) (nsim : ℕ) (cw : Bool)
    (p : ℚ) (ms : ℕ) (d : SimDraw) (h : rs.is_valid = false) :
    simulate_strategies rs nsim cw p ms d = generate_demo_strategies ∧
    generate_demo_strategies.length = 5 ∧ generate_demo_strategies ≠ [] := by
  refine ⟨?_, rfl, by simp [generate_demo_strategies]⟩
  unfold simulate_strategies
  rw [h]
  rfl

/-- C4 witness: the all-empty race state is invalid and gets the demo
list. -/
theorem invalid_state_demo_fallback_witness :
    rsInvalid.is_valid = false ∧
    simulate_strategies rsInvalid 1000 true 0.15 3 d0sim
      = generate_demo_strategies :=
  ⟨rfl, (invalid_state_demo_fallback rsInvalid 1000 true 0.15 3 d0sim rfl).1⟩

/-- C1 counterexample: on the demo-fallback path (invalid race state) the
returned list is the fixed demo list, whose `total_time`s run
120.5, 118.7, 116.3, 125.2, 135.8 — not ascending. -/
theorem simulate_strategies_demo_not_sorted :
    ¬ (simulate_strategies rsInvalid 1000 true 0.15 3 d0sim).Sorted byTime := by
  intro hs
  have hdemo : simulate_strategies rsInvalid 1000 true 0.15 3 d0sim
      = generate_demo_strategies := rfl
  rw [hdemo] at hs
  simp only [generate_demo_strategies, List.Sorted, List.pairwise_cons,
    List.mem_cons, byTime] at hs
  have h1 := hs.1 _ (Or.inl rfl)
  norm_num at h1

/-- C1 (amended): the returned list always has length at most 20, and on the
non-demo path (valid race state) it is sorted ascending by `total_time`; the
demo-fallback list has length 5 ≤ 20 but is not sorted. -/
theorem simulate_strategies_sorted_truncated (rs : RaceState) (nsim : ℕ)
    (cw : Bool) (p : ℚ) (ms : ℕ) (d : SimDraw) :
    (simulate_strategies rs nsim cw p ms d).length ≤ 20 ∧
    (rs.is_valid = true → (simulate_strategies rs nsim cw p ms d).Sorted byTime) := by
  unfold simulate_strategies
  by_cases h : rs.is_valid
  · rw [h]
    simp only [Bool.not_true, Bool.false_eq_true, if_false]
    constructor
    · rw [List.length_take]
      exact min_le_left _ _
    · intro _
      exact (List.sorted_insertionSort byTime _).sublist (List.take_sublist _ _)
  · rw [Bool.not_eq_true] at h
    rw [h]
    refine ⟨by simp [generate_demo_strategies], fun hv => absurd hv (by simp [h])⟩

/-- A valid race state: lap 10 of 14, one driver, good position data. -/
def rsLap10of14 : RaceState :=
  { current_lap := 10, total_laps := 14, drivers := [1], data_quality := [true]
    weather_data := {} }

/-- C1 witness: at a valid race state the output is sorted and at most 20
long. -/
theorem simulate_strategies_sorted_truncated_witness :
    rsLap10of14.is_valid = true ∧
    (simulate_strategies rsLap10of14 4 true 0.15 1 d0sim).length ≤ 20 ∧
    (simulate_strategies rsLap10of14 4 true 0.15 1 d0sim).Sorted byTime :=
  ⟨rfl, (simulate_strategies_sorted_truncated rsLap10of14 4 true 0.15 1 d0sim).1,
   (simulate_strategies_sorted_truncated rsLap10of14 4 true 0.15 1 d0sim).2 rfl⟩

/-- Shared helper: when the first stop lap lies beyond the current lap the
first stint has positive length, `_simulate_stint` is invoked, and its
`AttributeError` aborts the whole stint loop. -/
theorem stintLoop_cons_first_error (rs : RaceState) (cw : Bool) (p : ℚ)
    (s : ℤ) (srest : List ℤ) (pd : ℕ → ℚ × ℚ) (c : TireCompound)
    (rest : List TireCompound) (start : ℤ) (t r : ℚ) (hpos : start < s) :
    stintLoop rs cw p (s :: srest) pd (c :: rest) 0 start t r
      = .error .attributeError := by
  simp only [stintLoop, List.getD_cons_zero]
  rw [if_neg (by omega : ¬ s - start ≤ 0)]
  rw [simulate_stint_error]
  rfl

/-- Shared helper: a candidate whose first stop lap exceeds the current lap
always evaluates to `None` (the first stint is simulated and raises). -/
theorem simulate_single_none_of_first_stop (combo : StrategyCombo)
    (rs : RaceState) (cw : Bool) (p : ℚ) (pd : ℕ → ℚ × ℚ) (hm : ℕ)
    (s : ℤ) (srest : List ℤ) (c : TireCompound) (rest : List TireCompound)
    (hstops : combo.stop_laps = s :: srest)
    (hseq : combo.tire_sequence = c :: rest)
    (hpos : rs.current_lap < s) :
    simulate_single_strategy combo rs cw p pd hm = none := by
  unfold simulate_single_strategy
  rw [hstops, hseq,
    stintLoop_cons_first_error rs cw p s srest pd c rest rs.current_lap 0.0 0.0 hpos]
  rfl

/-- Shared helper: when every stop lap and the race end lie at or before the
current lap, every stint has non-positive length, the whole loop is skipped
and the accumulators are returned unchanged. -/
theorem stintLoop_all_skip (rs : RaceState) (cw : Bool) (p : ℚ)
    (stop_laps : List ℤ) (pd : ℕ → ℚ × ℚ) (seq : List TireCompound) :
    ∀ (idx : ℕ) (start : ℤ) (t r : ℚ), (∀ x ∈ stop_laps, x ≤ start) →
      rs.total_laps ≤ start →
      stintLoop rs cw p stop_laps pd seq idx start t r = .ok (t, r) := by
  induction seq with
  | nil => intro idx start t r _ _; rfl
  | cons c rest ih =>
    intro idx start t r hst htl
    have hend : stop_laps.getD idx rs.total_laps ≤ start := by
      rw [List.getD_eq_getElem?_getD]
      cases hx : stop_laps[idx]? with
      | none => simpa using htl
      | some v => simpa using hst v (List.getElem?_mem hx)
    simp only [stintLoop]
    rw [if_pos (by omega)]
    exact ih (idx + 1) start t r hst htl

/-- Shared helper: when every stint is skipped and the confidence division
cannot trigger, the evaluator completes and copies `num_stops` and
`stop_laps` from the candidate into the resulting `RaceStrategy`
unchanged. -/
theorem simulate_single_ok_shape (combo : StrategyCombo) (rs : RaceState)
    (cw : Bool) (p : ℚ) (pd : ℕ → ℚ × ℚ) (hm : ℕ)
    (hskip : ∀ x ∈ combo.stop_laps, x ≤ rs.current_lap)
    (htl : rs.total_laps ≤ rs.current_lap)
    (hdiv : ¬(combo.stop_laps ≠ [] ∧ rs.total_laps - rs.current_lap = 0)) :
    Option.map (fun s => (s.num_stops, s.stop_laps))
        (simulate_single_strategy combo rs cw p pd hm)
      = some (combo.num_stops, combo.stop_laps) := by
  unfold simulate_single_strategy
  rw [stintLoop_all_skip rs cw p combo.stop_laps pd combo.tire_sequence 0
    rs.current_lap 0.0 0.0 hskip htl]
  simp only [calculate_strategy_confidence]
  rw [if_neg hdiv]
  rfl

/-- The draws of the C10 scenario: `randint` offsets (+3, 0), all
`random.choice` draws picking the first menu entry. -/
def dC10 : GenDraw := ⟨fun i => if i = 0 then 3 else 0, fun _ => 0⟩

/-- Shared helper: the C10 candidate evaluated.  With `current_lap = 10`,
`total_laps = 14` the two intended stops land on lap 13 twice; dedup leaves
`stop_laps = [13]` while `num_stops` stays 2 and the tire sequence keeps
`2 + 1` entries. -/
theorem genC10_eval : generate_random_strategy 2 10 14 dC10
    = ⟨2, [13], [.medium, .soft, .soft]⟩ := by
  have hraw : rawStopLaps 2 10 14 dC10.offsets = List.replicate 2 13 := by
    unfold rawStopLaps
    rw [List.eq_replicate_iff]
    refine ⟨by simp, ?_⟩
    intro b hb
    simp only [List.mem_map, List.mem_range] at hb
    obtain ⟨i, hi, rfl⟩ := hb
    interval_cases i
    · have hq : linspace2080 2 0 * (((14 : ℤ) - 10 : ℤ) : ℚ) = 0.8 := by
        norm_num [linspace2080]
      have h0 : pyInt (linspace2080 2 0 * (((14 : ℤ) - 10 : ℤ) : ℚ)) = 0 := by
        rw [hq]
        unfold pyInt
        rw [if_pos (by norm_num)]
        exact Int.floor_eq_iff.mpr (by norm_num)
      rw [h0]
      rfl
    · have hq : linspace2080 2 1 * (((14 : ℤ) - 10 : ℤ) : ℚ) = 3.2 := by
        norm_num [linspace2080]
      have h1 : pyInt (linspace2080 2 1 * (((14 : ℤ) - 10 : ℤ) : ℚ)) = 3 := by
        rw [hq]
        unfold pyInt
        rw [if_pos (by norm_num)]
        exact Int.floor_eq_iff.mpr (by norm_num)
      rw [h1]
      rfl
  simp only [generate_random_strategy]
  rw [hraw]
  decide

/-- C10 counterexample: at the claim's own scenario (2 requested stops,
small remaining window, duplicate-producing draws) the candidate does have
`len(stop_laps) = 1 < 2 = num_stops` and a 3-entry tire sequence, but
evaluating it against the very race state it was generated from yields
`None` (the weather `AttributeError` fires in the first stint), so no
RaceStrategy reporting the mismatch results. -/
theorem shrunken_stop_laps_no_strategy :
    (generate_random_strategy 2 10 14 dC10).stop_laps.length
        < (generate_random_strategy 2 10 14 dC10).num_stops ∧
    (generate_random_strategy 2 10 14 dC10).tire_sequence.length
        = (generate_random_strategy 2 10 14 dC10).num_stops + 1 ∧
    simulate_single_strategy (generate_random_strategy 2 10 14 dC10) rsLap10of14
        true 0.15 (fun _ => (0, 1)) 0 = none := by
  rw [genC10_eval]
  refine ⟨by decide, by decide, ?_⟩
  exact simulate_single_none_of_first_stop _ rsLap10of14 true 0.15 _ 0 13 []
    .medium [.soft, .soft] rfl rfl (by decide)

/-- The degenerate race state used to exhibit the field-copying behaviour of
the evaluator: current lap 20 of a 14-lap race (valid by `is_valid`, which
never compares the two). -/
def rsDegen : RaceState :=
  { current_lap := 20, total_laps := 14, drivers := [1], data_quality := [true]
    weather_data := {} }

/-- C10 (amended): dedup can leave `stop_laps` shorter than `num_stops`
while the tire sequence keeps `num_stops + 1` entries; whenever the
evaluator completes, it copies both fields unchanged into the RaceStrategy
(shown on a degenerate state where every stint is skipped), but on the state
the candidate was generated from, evaluation dies on the weather
`AttributeError` and returns `None`, so the mismatched RaceStrategy is never
actually produced by the pipeline. -/
theorem shrunken_stop_laps_mismatch :
    (generate_random_strategy 2 10 14 dC10).stop_laps.length = 1 ∧
    (generate_random_strategy 2 10 14 dC10).num_stops = 2 ∧
    (generate_random_strategy 2 10 14 dC10).tire_sequence.length = 2 + 1 ∧
    Option.map (fun s => (s.num_stops, s.stop_laps))
        (simulate_single_strategy (generate_random_strategy 2 10 14 dC10) rsDegen
          true 0.15 (fun _ => (0, 1)) 0)
      = some (2, [13]) := by
  rw [genC10_eval]
  refine ⟨by decide, by decide, by decide, ?_⟩
  have h := simulate_single_ok_shape ⟨2, [13], [.medium, .soft, .soft]⟩ rsDegen
    true 0.15 (fun _ => (0, 1)) 0
    (by decide) (by decide) (by decide)
  rw [h]
